import Mathlib

/-
  Shallow embedding of the authentication core of the movie-react-app
  repository: the final-version OAuth service functions of services/appwrite.ts
  and the final-version coordinator of services/AuthContext.tsx, as printed in
  the technical report, plus the callback parser processOAuthCallback.

  JavaScript conventions used throughout the embedding:
  - a value that may be null/undefined is an Option;
  - string truthiness: undefined/null and the empty string are falsy;
  - Date parsing is a host primitive, so a date string is modelled as its raw
    text together with the outcome of Date.parse (none = Invalid Date / NaN);
  - URL parsing is a host primitive, so a callback URL is modelled as the
    outcome of the URL constructor (none = the constructor throws);
  - a rejected promise / thrown error is Except.error; errors carry either a
    backend code or one of the distinguished error messages of the source;
  - every remote call the code performs is recorded in an event trace, so
    that ordering claims can be stated.
-/

/-- Distinguished errors thrown by the source, plus arbitrary backend
rejections identified by a numeric code. -/
inductive AuthErr where
  | backend (code : Nat)
  | urlTypeError
  | missingCredentials
  | invalidCallbackFormat
  | cancelled
  | sessionButNoUser
  | oauthIncomplete
  deriving DecidableEq, Repr

/-- One backend / external call, for the event trace. -/
inductive Ev where
  | listIdentitiesCall
  | updateSessionCall
  | accountGetCall
  | googleProfileCall
  | deleteSessionCall
  | createEmailSessionCall
  | createAccountCall
  | createOAuthTokenCall
  | openBrowserCall
  | createOAuthSessionCall
  deriving DecidableEq, Repr

/-- A JavaScript date-string value: the raw text plus the verdict of the host
Date parser (none models an Invalid Date, whose time value is NaN). -/
structure DateStr where
  raw : String
  parsed : Option Int
  deriving DecidableEq, Repr

/-- Backend account record (the fields the coordinator reads). -/
structure User where
  name : String
  email : String
  deriving DecidableEq, Repr

/-- One linked provider identity, as returned by account.listIdentities. -/
structure Identity where
  provider : Option String
  providerAccessToken : Option String
  providerAccessTokenExpiry : Option DateStr
  deriving DecidableEq, Repr

/-- The wrapper object returned by account.listIdentities; the code guards
both the object and its identities field for truthiness. -/
structure IdentitiesResult where
  identities : Option (List Identity)
  deriving DecidableEq, Repr

/-- External (Google) profile response fields the code reads. -/
structure GoogleProfile where
  name : Option String
  picture : Option String
  deriving DecidableEq, Repr

/-- The derived profile the coordinator publishes. -/
structure Profile where
  name : String
  email : String
  avatar : Option String
  deriving DecidableEq, Repr

/-- The coordinator-owned published state. -/
structure AuthState where
  user : Option User
  profile : Option Profile
  isLoading : Bool
  deriving DecidableEq, Repr

/-- A parsed URL: its query parameters in order (URLSearchParams.get returns
the first value bound to a key, or null). -/
structure UrlObj where
  params : List (String × String)
  deriving DecidableEq, Repr

/-- Terminal result of WebBrowser.openAuthSessionAsync. The success payload
carries the (optional) result.url, itself modelled by its URL-parse outcome
(some none = a url string the URL constructor rejects). -/
inductive BrowserResult where
  | cancel
  | success (url : Option (Option UrlObj))
  | other
  deriving DecidableEq, Repr

/-- The external world for one authentication cycle: the outcome of every raw
backend / host call the code can make, plus the current clock. -/
structure Env where
  listIdentities : Except AuthErr IdentitiesResult
  updateSession : Except AuthErr Unit
  accountGet : Except AuthErr User
  googleFetch : String → Except AuthErr GoogleProfile
  deleteSession : Except AuthErr Unit
  createEmailPasswordSession : Except AuthErr Unit
  accountCreate : Except AuthErr User
  createOAuth2Token : Except AuthErr Unit
  browserResult : BrowserResult
  createSession : Except AuthErr Unit
  now : Int

/-- JavaScript truthiness of a string-or-undefined value. -/
def jsTruthyStr : Option String → Bool
  | none => false
  | some s => !(s = "")

/-- JavaScript truthiness of a date-string-or-undefined value. -/
def jsTruthyDate : Option DateStr → Bool
  | none => false
  | some d => !(d.raw = "")

/-- url.searchParams.get(k): first value bound to k, or null. -/
def searchParamsGet (u : UrlObj) (k : String) : Option String :=
  (u.params.find? (fun p => p.1 = k)).map (fun p => p.2)

/-- The character sequence of a string lowercased character by character
(the model of the host toLowerCase over the ASCII provider tags). -/
def lowerChars (s : String) : List Char := s.toList.map Char.toLower

/-- identity.provider?.toLowerCase().includes("google"): optional chaining
makes an absent provider falsy; otherwise lowercase substring containment. -/
def providerMatchesGoogle (provider : Option String) : Bool :=
  match provider with
  | none => false
  | some p => decide ("google".toList <:+: lowerChars p)

/-- appwrite.ts isTokenExpired: an empty (falsy) argument returns true; an
Invalid Date compares NaN against a number, which is false; otherwise the
comparison expiry <= now + 5 minutes. -/
def isTokenExpired (expiryDateString : Option DateStr) (now : Int) : Bool :=
  match expiryDateString with
  | none => true
  | some d =>
    if d.raw = "" then true
    else
      match d.parsed with
      | none => false
      | some t => decide (t ≤ now + 5 * 60 * 1000)

/-- appwrite.ts getUserIdentities: returns account.listIdentities, catching
any error and returning null. -/
def getUserIdentities (env : Env) : Option IdentitiesResult × List Ev :=
  (env.listIdentities.toOption, [Ev.listIdentitiesCall])

/-- appwrite.ts refreshOAuthSession: calls account.updateSession and rethrows
its error. -/
def refreshOAuthSession (env : Env) : Except AuthErr Unit × List Ev :=
  (env.updateSession, [Ev.updateSessionCall])

/-- appwrite.ts getCurrentUser: returns account.get, catching any error and
returning null. -/
def getCurrentUser (env : Env) : Option User × List Ev :=
  (env.accountGet.toOption, [Ev.accountGetCall])

/-- appwrite.ts getGoogleProfile: fetches the Google userinfo endpoint with
the access token, catching any error and returning null. -/
def getGoogleProfile (env : Env) (accessToken : String) : Option GoogleProfile × List Ev :=
  ((env.googleFetch accessToken).toOption, [Ev.googleProfileCall])

/-- The identity lookup both checkAndRefreshOAuthTokens and fetchUserProfile
perform: identities.find(identity => identity.provider?.toLowerCase().includes("google")). -/
def findGoogleIdentity (l : List Identity) : Option Identity :=
  l.find? (fun i => providerMatchesGoogle i.provider)

/-- appwrite.ts checkAndRefreshOAuthTokens: fetches identities, finds the
google identity, and only when its providerAccessTokenExpiry is truthy and
isTokenExpired holds does it call refreshOAuthSession; returns true only when
the refresh succeeded; every error is caught and yields false. -/
def checkAndRefreshOAuthTokens (env : Env) : Bool × List Ev :=
  let (ids, t1) := getUserIdentities env
  match ids with
  | none => (false, t1)
  | some res =>
    match res.identities with
    | none => (false, t1)
    | some l =>
      match findGoogleIdentity l with
      | none => (false, t1)
      | some gi =>
        if jsTruthyDate gi.providerAccessTokenExpiry then
          if isTokenExpired gi.providerAccessTokenExpiry env.now then
            let (r, t2) := refreshOAuthSession env
            match r with
            | Except.ok _ => (true, t1 ++ t2)
            | Except.error _ => (false, t1 ++ t2)
          else (false, t1)
        else (false, t1)

/-- processOAuthCallback from the technical report: the whole body, including
the early-validation throw for missing parameters, sits inside one try whose
catch rethrows the invalid-format error. -/
def processOAuthCallback (url : Option UrlObj) : Except AuthErr (String × String) :=
  let body : Except AuthErr (String × String) :=
    match url with
    | none => Except.error AuthErr.urlTypeError
    | some u =>
      let secret := searchParamsGet u "secret"
      let userId := searchParamsGet u "userId"
      if jsTruthyStr userId && jsTruthyStr secret then
        Except.ok (userId.getD "", secret.getD "")
      else
        Except.error AuthErr.missingCredentials
  match body with
  | Except.ok v => Except.ok v
  | Except.error _ => Except.error AuthErr.invalidCallbackFormat

/-- appwrite.ts signIn: account.createEmailPasswordSession, rethrowing. -/
def signIn (env : Env) : Except AuthErr Unit × List Ev :=
  (env.createEmailPasswordSession, [Ev.createEmailSessionCall])

/-- appwrite.ts createAccount: account.create, rethrowing. -/
def createAccount (env : Env) : Except AuthErr User × List Ev :=
  (env.accountCreate, [Ev.createAccountCall])

/-- appwrite.ts signOut: account.deleteSession("current"), rethrowing. -/
def signOutW (env : Env) : Except AuthErr Unit × List Ev :=
  (env.deleteSession, [Ev.deleteSessionCall])

/-- appwrite.ts signInWithGoogle (final version): requests an OAuth token URL,
drives the external browser, parses the redirect URL inline, exchanges the
credentials for a session and confirms the user; the catch clause rethrows the
same error. -/
def signInWithGoogle (env : Env) : Except AuthErr User × List Ev :=
  match env.createOAuth2Token with
  | Except.error e => (Except.error e, [Ev.createOAuthTokenCall])
  | Except.ok _ =>
    let t0 := [Ev.createOAuthTokenCall, Ev.openBrowserCall]
    match env.browserResult with
    | BrowserResult.cancel => (Except.error AuthErr.cancelled, t0)
    | BrowserResult.other => (Except.error AuthErr.oauthIncomplete, t0)
    | BrowserResult.success urlField =>
      match urlField with
      | none => (Except.error AuthErr.oauthIncomplete, t0)
      | some parsedUrl =>
        match parsedUrl with
        | none => (Except.error AuthErr.urlTypeError, t0)
        | some u =>
          let secret := searchParamsGet u "secret"
          let userId := searchParamsGet u "userId"
          if jsTruthyStr userId && jsTruthyStr secret then
            match env.createSession with
            | Except.error e => (Except.error e, t0 ++ [Ev.createOAuthSessionCall])
            | Except.ok _ =>
              let (cu, t2) := getCurrentUser env
              match cu with
              | some user => (Except.ok user, t0 ++ [Ev.createOAuthSessionCall] ++ t2)
              | none => (Except.error AuthErr.sessionButNoUser, t0 ++ [Ev.createOAuthSessionCall] ++ t2)
          else
            (Except.error AuthErr.missingCredentials, t0)

/-- AuthContext.tsx fetchUserProfile, base profile construction: name falls
back to "User" when falsy, email falls back to the empty string, avatar is
initialised undefined. -/
def baseProfile (currentUser : User) : Profile :=
  { name := if currentUser.name = "" then "User" else currentUser.name
  , email := currentUser.email
  , avatar := none }

/-- AuthContext.tsx fetchUserProfile, the if-googleProfile block: the name is
overlaid only when the external name is truthy, the avatar field is assigned
the external picture unconditionally. -/
def enrichApply (p : Profile) (gp : GoogleProfile) : Profile :=
  { name :=
      match gp.name with
      | none => p.name
      | some n => if n = "" then p.name else n
  , email := p.email
  , avatar := gp.picture }

/-- AuthContext.tsx fetchUserProfile, the enrichment step applied to a base
profile given the matched identity access token: a falsy token skips the
external call; a failed call (getGoogleProfile returns null) leaves the base
untouched; a successful call applies the overlay block. -/
def enrich (env : Env) (base : Profile) (accessToken : Option String) : Profile × List Ev :=
  match accessToken with
  | none => (base, [])
  | some tok =>
    if tok = "" then (base, [])
    else
      let (gp, t) := getGoogleProfile env tok
      match gp with
      | some g => (enrichApply base g, t)
      | none => (base, t)

/-- AuthContext.tsx fetchUserProfile: builds the base profile, fetches the
identities, locates the google identity and, when it carries a truthy access
token, enriches the base with the external profile; its own catch clause
falls back to the base profile, and every callee catches internally. -/
def fetchUserProfile (env : Env) (currentUser : User) : Profile × List Ev :=
  let base := baseProfile currentUser
  let (ids, t1) := getUserIdentities env
  match ids with
  | none => (base, t1)
  | some res =>
    match res.identities with
    | none => (base, t1)
    | some l =>
      match findGoogleIdentity l with
      | none => (base, t1)
      | some gi =>
        let (p, t2) := enrich env base gi.providerAccessToken
        (p, t1 ++ t2)

/-- AuthContext.tsx checkCurrentUser (the refresh procedure): sets isLoading,
runs the token-expiry check/refresh, fetches the current user, publishes user
and profile together or clears both, and the finally clause resets isLoading;
the surrounding try/catch clears both on any exception. The embedding is a
total function because every callee absorbs its own failures, mirroring the
catch clauses of the source. -/
def checkCurrentUser (env : Env) (_s : AuthState) : AuthState × List Ev :=
  let (_, t1) := checkAndRefreshOAuthTokens env
  let (cu, t2) := getCurrentUser env
  match cu with
  | some u =>
    let (p, t3) := fetchUserProfile env u
    ({ user := some u, profile := some p, isLoading := false }, t1 ++ t2 ++ t3)
  | none =>
    ({ user := none, profile := none, isLoading := false }, t1 ++ t2)

/-- AuthContext.tsx signin: password session creation, then checkCurrentUser;
the catch clause clears user (and only user) and rethrows the same error. -/
def signin (env : Env) (s : AuthState) : Except AuthErr Unit × AuthState × List Ev :=
  match signIn env with
  | (Except.error e, t) => (Except.error e, { s with user := none }, t)
  | (Except.ok _, t) =>
    let (s2, t2) := checkCurrentUser env s
    (Except.ok (), s2, t ++ t2)

/-- AuthContext.tsx signup: account creation, then password sign-in, then
checkCurrentUser; the catch clause clears user (and only user) and rethrows
the same error. -/
def signup (env : Env) (s : AuthState) : Except AuthErr Unit × AuthState × List Ev :=
  match createAccount env with
  | (Except.error e, t) => (Except.error e, { s with user := none }, t)
  | (Except.ok _, t1) =>
    match signIn env with
    | (Except.error e, t2) => (Except.error e, { s with user := none }, t1 ++ t2)
    | (Except.ok _, t2) =>
      let (s2, t3) := checkCurrentUser env s
      (Except.ok (), s2, t1 ++ t2 ++ t3)

/-- AuthContext.tsx googleSignIn: runs signInWithGoogle, then checkCurrentUser;
the catch clause clears user (and only user) and rethrows the same error. -/
def googleSignIn (env : Env) (s : AuthState) : Except AuthErr Unit × AuthState × List Ev :=
  match signInWithGoogle env with
  | (Except.error e, t) => (Except.error e, { s with user := none }, t)
  | (Except.ok _, t) =>
    let (s2, t2) := checkCurrentUser env s
    (Except.ok (), s2, t ++ t2)

/-- AuthContext.tsx logout: sets isLoading, calls signOut; both the success
path and the catch clause clear user and profile, and the finally clause
resets isLoading; no error is rethrown. -/
def logout (env : Env) (_s : AuthState) : AuthState × List Ev :=
  match signOutW env with
  | (Except.ok _, t) => ({ user := none, profile := none, isLoading := false }, t)
  | (Except.error _, t) => ({ user := none, profile := none, isLoading := false }, t)

/-- Modelled from the spec (section 4.3): case-insensitive substring
containment of a provider-name fragment in a provider field, the matching
predicate the IdentityTokenResolver contract describes. -/
def ciContains (provider fragment : String) : Bool :=
  decide (lowerChars fragment <:+: lowerChars provider)

/-- Modelled from the spec (section 4.3): the matching predicate of the
IdentityTokenResolver contract at the provider-name fragment "google", stated
as case-insensitive substring containment on the provider field. -/
def ciMatchesGoogle (x : Identity) : Bool :=
  match x.provider with
  | none => false
  | some p => ciContains p "google"

/-- A google identity with a fresh (one hour ahead of clock zero) token. -/
def giFresh : Identity :=
  { provider := some "google"
  , providerAccessToken := some "tok"
  , providerAccessTokenExpiry := some { raw := "2025-01-01T01:00:00Z", parsed := some 3600000 } }

/-- A google identity whose providerAccessTokenExpiry is absent. -/
def giAbsentExpiry : Identity :=
  { provider := some "google"
  , providerAccessToken := some "tok"
  , providerAccessTokenExpiry := none }

/-- A google identity whose token expired before clock zero. -/
def giExpired : Identity :=
  { provider := some "google"
  , providerAccessToken := some "tok"
  , providerAccessTokenExpiry := some { raw := "2024-12-31T23:00:00Z", parsed := some (-3600000) } }

/-- A concrete environment in which every backend call succeeds, the google
identity carries a fresh token, and the external profile provides both
fields; clock fixed at zero. -/
def envOk : Env :=
  { listIdentities := Except.ok { identities := some [giFresh] }
  , updateSession := Except.ok ()
  , accountGet := Except.ok { name := "Ada", email := "a@x.com" }
  , googleFetch := fun _ => Except.ok { name := some "Ada", picture := some "p.png" }
  , deleteSession := Except.ok ()
  , createEmailPasswordSession := Except.ok ()
  , accountCreate := Except.ok { name := "Ada", email := "a@x.com" }
  , createOAuth2Token := Except.ok ()
  , browserResult := BrowserResult.success (some (some { params := [("secret", "s1"), ("userId", "u1")] }))
  , createSession := Except.ok ()
  , now := 0 }

/-- envOk, but the matched google identity has an absent expiry field. -/
def envAbsentExpiry : Env :=
  { envOk with listIdentities := Except.ok { identities := some [giAbsentExpiry] } }

/-- envOk, but the matched google identity has an expired token. -/
def envExpired : Env :=
  { envOk with listIdentities := Except.ok { identities := some [giExpired] } }

/-- envOk, but password session creation is rejected by the backend. -/
def envSigninFails : Env :=
  { envOk with createEmailPasswordSession := Except.error (AuthErr.backend 401) }

/-- envOk, but account creation is rejected by the backend. -/
def envCreateFails : Env :=
  { envOk with accountCreate := Except.error (AuthErr.backend 409) }

/-- envOk, but the external profile call succeeds while providing neither a
name nor a picture. -/
def envEmptyGoogleProfile : Env :=
  { envOk with googleFetch := fun _ => Except.ok { name := none, picture := none } }

/-- envOk, but the external profile call fails with a network error. -/
def envFetchFails : Env :=
  { envOk with googleFetch := fun _ => Except.error (AuthErr.backend 500) }

/-- envOk, but the raw user fetch is rejected by the backend. -/
def envUserFetchFails : Env :=
  { envOk with accountGet := Except.error (AuthErr.backend 401) }

/-- The coordinator state at startup. -/
def sInit : AuthState := { user := none, profile := none, isLoading := true }

/-- An authenticated published state (user and profile both set). -/
def sAuthed : AuthState :=
  { user := some { name := "Ada", email := "a@x.com" }
  , profile := some { name := "Ada", email := "a@x.com", avatar := none }
  , isLoading := false }

/-- A base profile that already carries an avatar. -/
def baseWithAvatar : Profile := { name := "N", email := "e", avatar := some "x" }

/-- C3 theorem: for every outcome of the backend session-deletion call,
including when deleteSession throws, signOut (logout) terminates with user
absent, profile absent and isLoading false. -/
theorem logout_always_unauthenticated (env : Env) (s : AuthState) :
    (logout env s).1 = { user := none, profile := none, isLoading := false } := by
  unfold logout signOutW
  cases env.deleteSession <;> rfl

/-- C2 theorem: refresh (checkCurrentUser) is a total function of the backend
environment — it is defined, with no propagated exception, for every
combination of failures of the token-refresh check, the user fetch, the
identity fetch and the profile fetch, mirroring the catch clauses of the
source; the final state always has isLoading false; user and profile are
published together or cleared together; and whenever the raw user fetch
fails, both are cleared. -/
theorem checkCurrentUser_never_throws_clears_together (env : Env) (s : AuthState) :
    ((checkCurrentUser env s).1.isLoading = false)
    ∧ ((checkCurrentUser env s).1.user = none → (checkCurrentUser env s).1.profile = none)
    ∧ (env.accountGet.toOption = none →
        (checkCurrentUser env s).1.user = none ∧ (checkCurrentUser env s).1.profile = none) := by
  cases h : env.accountGet with
  | ok u => simp [checkCurrentUser, getCurrentUser, h, Except.toOption]
  | error e => simp [checkCurrentUser, getCurrentUser, h, Except.toOption]

/-- C4 counterexample: the claim says an unparseable expiry timestamp yields
true, but isTokenExpired on a non-empty unparseable timestamp (an Invalid
Date, whose NaN time value makes every comparison false) returns false. -/
theorem isTokenExpired_unparseable_counterexample :
    isTokenExpired (some { raw := "not-a-date", parsed := none }) 0 = false := by
  rfl

/-- C4 amended theorem: an absent or empty expiry yields true; a non-empty
unparseable expiry yields false (the policy fails open there, not fail safe);
a parseable expiry yields true exactly when expiry <= now + 5 minutes, with
the boundary inclusive. -/
theorem isTokenExpired_amended (now : Int) (e : Option DateStr) :
    (e = none → isTokenExpired e now = true)
    ∧ (∀ d, e = some d → d.raw = "" → isTokenExpired e now = true)
    ∧ (∀ d, e = some d → d.raw ≠ "" → d.parsed = none → isTokenExpired e now = false)
    ∧ (∀ d t, e = some d → d.raw ≠ "" → d.parsed = some t →
        (isTokenExpired e now = true ↔ t ≤ now + 5 * 60 * 1000)) := by
  refine ⟨?_, ?_, ?_, ?_⟩
  · rintro rfl
    rfl
  · rintro d rfl h
    simp [isTokenExpired, h]
  · rintro d rfl h hp
    simp [isTokenExpired, h, hp]
  · rintro d t rfl h hp
    simp [isTokenExpired, h, hp]

/-- C4 amended witness: a timestamp exactly five minutes ahead of the clock
counts as expiring (boundary inclusive), and a concrete unparseable
timestamp is reported as not expired. -/
theorem isTokenExpired_amended_witness :
    isTokenExpired (some { raw := "2025-01-01T00:05:00Z", parsed := some 300000 }) 0 = true
    ∧ isTokenExpired (some { raw := "x", parsed := none }) 0 = false := by
  constructor
  · exact ((isTokenExpired_amended 0 _).2.2.2
      { raw := "2025-01-01T00:05:00Z", parsed := some 300000 } 300000 rfl
      (by decide) rfl).mpr (by norm_num)
  · exact (isTokenExpired_amended 0 _).2.2.1 { raw := "x", parsed := none } rfl (by decide) rfl

/-- C5 counterexample: for a well-formed URL carrying neither userId nor
secret, processOAuthCallback fails, but with the invalid-callback-format
error rather than the distinct missing-credentials error the claim requires:
its internal missing-parameters throw sits inside its own try block and is
rewrapped by the catch-all. -/
theorem processOAuthCallback_counterexample :
    processOAuthCallback (some { params := [] }) = Except.error AuthErr.invalidCallbackFormat
    ∧ AuthErr.invalidCallbackFormat ≠ AuthErr.missingCredentials := by
  constructor
  · rfl
  · decide

/-- C5 amended theorem: parsing fails for a malformed URL; for a well-formed
URL it returns the (userId, secret) pair exactly when both query parameters
are present and non-empty; and every failure — malformed URL or missing or
empty credential alike — surfaces as InvalidCallbackFormat, never as
MissingCredentials, because the internal missing-parameters throw is caught
by the function's own catch-all and rewrapped. -/
theorem processOAuthCallback_amended (url : Option UrlObj) :
    (url = none → processOAuthCallback url = Except.error AuthErr.invalidCallbackFormat)
    ∧ (∀ u, url = some u →
        ((jsTruthyStr (searchParamsGet u "userId") && jsTruthyStr (searchParamsGet u "secret")) = true →
          processOAuthCallback url =
            Except.ok ((searchParamsGet u "userId").getD "", (searchParamsGet u "secret").getD ""))
        ∧ ((jsTruthyStr (searchParamsGet u "userId") && jsTruthyStr (searchParamsGet u "secret")) = false →
          processOAuthCallback url = Except.error AuthErr.invalidCallbackFormat))
    ∧ processOAuthCallback url ≠ Except.error AuthErr.missingCredentials := by
  refine ⟨?_, ?_, ?_⟩
  · rintro rfl
    rfl
  · rintro u rfl
    constructor
    · intro h
      simp [processOAuthCallback, h]
    · intro h
      simp [processOAuthCallback, h]
  · cases url with
    | none => simp [processOAuthCallback]
    | some u =>
      cases h : (jsTruthyStr (searchParamsGet u "userId") && jsTruthyStr (searchParamsGet u "secret")) with
      | true => simp [processOAuthCallback, h]
      | false => simp [processOAuthCallback, h]

/-- C5 amended witness: the example URL .../cb?secret=s1&userId=u1 parses to
the pair ("u1", "s1"), and a URL missing both credentials fails with
InvalidCallbackFormat. -/
theorem processOAuthCallback_amended_witness :
    processOAuthCallback (some { params := [("secret", "s1"), ("userId", "u1")] }) =
      Except.ok ("u1", "s1")
    ∧ processOAuthCallback (some { params := [("other", "v")] }) =
      Except.error AuthErr.invalidCallbackFormat := by
  constructor
  · exact ((processOAuthCallback_amended
      (some { params := [("secret", "s1"), ("userId", "u1")] })).2.1 _ rfl).1 (by decide)
  · exact ((processOAuthCallback_amended
      (some { params := [("other", "v")] })).2.1 _ rfl).2 (by decide)

/-- C10 theorem: when the identities fetch succeeds and the matched google
identity has an absent or empty providerAccessTokenExpiry, the cycle performs
no session refresh: checkAndRefreshOAuthTokens returns false and its trace
holds only the listIdentities call — no updateSession call — even though the
expiry policy treats that very timestamp as expired. -/
theorem checkAndRefresh_absent_expiry_skips_refresh (env : Env)
    (res : IdentitiesResult) (l : List Identity) (gi : Identity)
    (h1 : env.listIdentities = Except.ok res)
    (h2 : res.identities = some l)
    (h3 : findGoogleIdentity l = some gi)
    (h4 : jsTruthyDate gi.providerAccessTokenExpiry = false) :
    checkAndRefreshOAuthTokens env = (false, [Ev.listIdentitiesCall])
    ∧ isTokenExpired gi.providerAccessTokenExpiry env.now = true := by
  constructor
  · simp [checkAndRefreshOAuthTokens, getUserIdentities, h1, Except.toOption, h2, h3, h4]
  · cases he : gi.providerAccessTokenExpiry with
    | none => rfl
    | some d =>
      rw [he] at h4
      simp [jsTruthyDate] at h4
      simp [isTokenExpired, h4]

/-- C10 witness: in a concrete environment whose matched google identity
carries no expiry timestamp, the cycle returns false and never calls
updateSession. -/
theorem checkAndRefresh_absent_expiry_skips_refresh_witness :
    checkAndRefreshOAuthTokens envAbsentExpiry = (false, [Ev.listIdentitiesCall])
    ∧ isTokenExpired giAbsentExpiry.providerAccessTokenExpiry envAbsentExpiry.now = true :=
  checkAndRefresh_absent_expiry_skips_refresh envAbsentExpiry
    { identities := some [giAbsentExpiry] } [giAbsentExpiry] giAbsentExpiry
    rfl rfl (by decide) (by decide)

/-- C7 counterexample: in a refresh cycle whose matched google identity has an
absent expiry, the expiry policy reports the token expired, yet the cycle
invokes no session refresh at all — the user state is read (accountGet occurs
in the trace) with no updateSession call anywhere, contradicting the claim
that the refresh is invoked before getCurrentUser in every such cycle. -/
theorem refresh_before_read_counterexample :
    isTokenExpired giAbsentExpiry.providerAccessTokenExpiry envAbsentExpiry.now = true
    ∧ findGoogleIdentity [giAbsentExpiry] = some giAbsentExpiry
    ∧ Ev.updateSessionCall ∉ (checkCurrentUser envAbsentExpiry sInit).2
    ∧ Ev.accountGetCall ∈ (checkCurrentUser envAbsentExpiry sInit).2 := by
  decide

/-- C7 amended theorem: in every refresh cycle where the matched google
identity has a present, non-empty expiry that the policy reports expired or
expiring, the trace of checkCurrentUser begins with the listIdentities call
followed immediately by the updateSession call, and only then the accountGet
call — so the backend session refresh happens before the user state is read
and before any enrichment data (which can only appear later in the trace) is
fetched. -/
theorem refresh_before_read_amended (env : Env) (s : AuthState)
    (res : IdentitiesResult) (l : List Identity) (gi : Identity)
    (h1 : env.listIdentities = Except.ok res)
    (h2 : res.identities = some l)
    (h3 : findGoogleIdentity l = some gi)
    (h4 : jsTruthyDate gi.providerAccessTokenExpiry = true)
    (h5 : isTokenExpired gi.providerAccessTokenExpiry env.now = true) :
    ∃ rest, (checkCurrentUser env s).2 =
      Ev.listIdentitiesCall :: Ev.updateSessionCall :: Ev.accountGetCall :: rest := by
  have ht : (checkAndRefreshOAuthTokens env).2 = [Ev.listIdentitiesCall, Ev.updateSessionCall] := by
    cases hu : env.updateSession with
    | ok v =>
      simp [checkAndRefreshOAuthTokens, getUserIdentities, refreshOAuthSession,
        h1, Except.toOption, h2, h3, h4, h5, hu]
    | error e =>
      simp [checkAndRefreshOAuthTokens, getUserIdentities, refreshOAuthSession,
        h1, Except.toOption, h2, h3, h4, h5, hu]
  rcases hA : checkAndRefreshOAuthTokens env with ⟨b, t1⟩
  rw [hA] at ht
  simp only at ht
  subst ht
  cases hg : env.accountGet with
  | ok u =>
    refine ⟨(fetchUserProfile env u).2, ?_⟩
    simp [checkCurrentUser, getCurrentUser, hA, hg, Except.toOption]
  | error e =>
    refine ⟨[], ?_⟩
    simp [checkCurrentUser, getCurrentUser, hA, hg, Except.toOption]

/-- C7 amended witness: in a concrete environment whose google identity holds
an expired token with a present expiry timestamp, the cycle trace starts with
listIdentities, updateSession, accountGet in that order. -/
theorem refresh_before_read_amended_witness :
    ∃ rest, (checkCurrentUser envExpired sInit).2 =
      Ev.listIdentitiesCall :: Ev.updateSessionCall :: Ev.accountGetCall :: rest :=
  refresh_before_read_amended envExpired sInit
    { identities := some [giExpired] } [giExpired] giExpired
    rfl rfl (by decide) (by decide) (by decide)

/-- C6 counterexample: a successful external call that provides no picture
field overwrites a base avatar with absent — the enrichment assigns the
external picture to the avatar field unconditionally, contrary to the claim
that a base field is never overwritten with a missing external field. -/
theorem enrich_overwrites_avatar_counterexample :
    (enrich envEmptyGoogleProfile baseWithAvatar (some "tok")).1.avatar = none
    ∧ baseWithAvatar.avatar = some "x" := by
  constructor
  · rfl
  · rfl

/-- C6 amended theorem: enrichment returns the base profile unchanged, with
no external call, when the access token is absent or empty, and unchanged
when the external call fails; on a successful call it never touches email,
overlays name only when the external name is present and non-empty, but
assigns the avatar field the external picture unconditionally — so a missing
external picture clears a base avatar. Since the program always constructs
its base profiles with an absent avatar (baseProfile), no populated base
field is lost in the composed flow. -/
theorem enrich_amended (env : Env) (base : Profile) (tok : Option String) :
    (jsTruthyStr tok = false → enrich env base tok = (base, []))
    ∧ (∀ t, tok = some t → t ≠ "" → (env.googleFetch t).toOption = none →
        enrich env base tok = (base, [Ev.googleProfileCall]))
    ∧ (∀ t gp, tok = some t → t ≠ "" → env.googleFetch t = Except.ok gp →
        enrich env base tok = (enrichApply base gp, [Ev.googleProfileCall])
        ∧ (enrichApply base gp).email = base.email
        ∧ (jsTruthyStr gp.name = false → (enrichApply base gp).name = base.name)
        ∧ (∀ n, gp.name = some n → n ≠ "" → (enrichApply base gp).name = n)
        ∧ (enrichApply base gp).avatar = gp.picture)
    ∧ (∀ u, base = baseProfile u → base.avatar = none) := by
  refine ⟨?_, ?_, ?_, ?_⟩
  · intro h
    cases tok with
    | none => rfl
    | some t =>
      simp [jsTruthyStr] at h
      simp [enrich, h]
  · rintro t rfl ht hf
    simp [enrich, ht, getGoogleProfile, hf]
  · rintro t gp rfl ht hf
    refine ⟨?_, rfl, ?_, ?_, rfl⟩
    · simp [enrich, ht, getGoogleProfile, hf, Except.toOption]
    · intro hn
      cases hgn : gp.name with
      | none => simp [enrichApply, hgn]
      | some n =>
        rw [hgn] at hn
        simp [jsTruthyStr] at hn
        simp [enrichApply, hgn, hn]
    · intro n hgn hn
      simp [enrichApply, hgn, hn]
  · rintro u rfl
    rfl

/-- C6 amended witness: with a failing external call the base profile comes
back unchanged, and with a successful call that provides neither field the
name survives while the avatar field receives the absent external picture. -/
theorem enrich_amended_witness :
    enrich envFetchFails baseWithAvatar (some "tok") = (baseWithAvatar, [Ev.googleProfileCall])
    ∧ (enrichApply baseWithAvatar { name := none, picture := none }).name = baseWithAvatar.name
    ∧ (enrichApply baseWithAvatar { name := none, picture := none }).avatar = none := by
  refine ⟨?_, ?_, ?_⟩
  · exact (enrich_amended envFetchFails baseWithAvatar (some "tok")).2.1 "tok" rfl
      (by decide) rfl
  · exact ((enrich_amended envEmptyGoogleProfile baseWithAvatar (some "tok")).2.2.1 "tok"
      { name := none, picture := none } rfl (by decide) rfl).2.2.1 rfl
  · exact ((enrich_amended envEmptyGoogleProfile baseWithAvatar (some "tok")).2.2.1 "tok"
      { name := none, picture := none } rfl (by decide) rfl).2.2.2.2

/-- C9 counterexample: when account creation fails while the coordinator is
in an authenticated state, signup does not leave the state untouched — its
catch clause clears user (keeping profile), so the resulting state differs
from the prior one even though the error is propagated. -/
theorem signup_untouched_counterexample :
    (signup envCreateFails sAuthed).1 = Except.error (AuthErr.backend 409)
    ∧ (signup envCreateFails sAuthed).2.1 ≠ sAuthed
    ∧ (signup envCreateFails sAuthed).2.1.user = none := by
  refine ⟨rfl, ?_, rfl⟩
  intro h
  have : (signup envCreateFails sAuthed).2.1.user = sAuthed.user := by rw [h]
  simp [signup, createAccount, envCreateFails, envOk, sAuthed] at this

/-- C9 amended theorem: whenever the backend account-creation call fails,
signup propagates that same error to the caller, performs no further backend
call, leaves profile and isLoading untouched, and clears user to absent (a
no-op only in the unauthenticated states signup is normally invoked from). -/
theorem signup_create_failure_amended (env : Env) (s : AuthState) (e : AuthErr)
    (h : env.accountCreate = Except.error e) :
    signup env s = (Except.error e, { s with user := none }, [Ev.createAccountCall]) := by
  simp [signup, createAccount, h]

/-- C9 amended witness: a concrete rejected account creation propagates the
backend error, clears user and keeps the profile of the prior state. -/
theorem signup_create_failure_amended_witness :
    signup envCreateFails sAuthed =
      (Except.error (AuthErr.backend 409), { sAuthed with user := none }, [Ev.createAccountCall]) :=
  signup_create_failure_amended envCreateFails sAuthed (AuthErr.backend 409) rfl

/-- C1 counterexample: starting from an authenticated published state, a
failed password sign-in ends with user absent but profile still set — the
error path of signin clears user without clearing profile, violating the
claimed invariant that profile is never set while user is absent. -/
theorem authState_invariant_counterexample :
    (signin envSigninFails sAuthed).2.1.user = none
    ∧ (signin envSigninFails sAuthed).2.1.profile =
        some { name := "Ada", email := "a@x.com", avatar := none } := by
  constructor
  · rfl
  · rfl

/-- C1 amended theorem: the coordinator operations that converge state —
refresh (checkCurrentUser) and signOut — do preserve the invariant: refresh
publishes user and profile together or clears them together, and signOut
clears both; but the error paths of signin, signup and delegated sign-in
clear user while leaving profile exactly as it was, so a failure of one of
those operations from a profile-set state publishes profile with user
absent. -/
theorem authState_invariant_amended (env : Env) (s : AuthState) :
    ((checkCurrentUser env s).1.profile.isSome → (checkCurrentUser env s).1.user.isSome)
    ∧ ((logout env s).1.user = none ∧ (logout env s).1.profile = none)
    ∧ (∀ e s2 t, signin env s = (Except.error e, s2, t) →
        s2.user = none ∧ s2.profile = s.profile)
    ∧ (∀ e s2 t, signup env s = (Except.error e, s2, t) →
        s2.user = none ∧ s2.profile = s.profile)
    ∧ (∀ e s2 t, googleSignIn env s = (Except.error e, s2, t) →
        s2.user = none ∧ s2.profile = s.profile) := by
  refine ⟨?_, ?_, ?_, ?_, ?_⟩
  · cases h : env.accountGet with
    | ok u => simp [checkCurrentUser, getCurrentUser, h, Except.toOption]
    | error e => simp [checkCurrentUser, getCurrentUser, h, Except.toOption]
  · cases h : env.deleteSession with
    | ok u => simp [logout, signOutW, h]
    | error e => simp [logout, signOutW, h]
  · intro e s2 t h
    cases hc : env.createEmailPasswordSession with
    | ok u =>
      simp [signin, signIn, hc] at h
    | error e2 =>
      simp [signin, signIn, hc] at h
      rw [← h.2.1]
      exact ⟨rfl, rfl⟩
  · intro e s2 t h
    cases ha : env.accountCreate with
    | ok u =>
      cases hc : env.createEmailPasswordSession with
      | ok v =>
        simp [signup, createAccount, signIn, ha, hc] at h
      | error e2 =>
        simp [signup, createAccount, signIn, ha, hc] at h
        rw [← h.2.1]
        exact ⟨rfl, rfl⟩
    | error e2 =>
      simp [signup, createAccount, ha] at h
      rw [← h.2.1]
      exact ⟨rfl, rfl⟩
  · intro e s2 t h
    rcases hg : signInWithGoogle env with ⟨r, tr⟩
    cases r with
    | ok u =>
      simp [googleSignIn, hg] at h
    | error e2 =>
      simp [googleSignIn, hg] at h
      rw [← h.2.1]
      exact ⟨rfl, rfl⟩

/-- C1 amended witness: instantiating the amended invariant theorem at the
concrete failed password sign-in from an authenticated state. -/
theorem authState_invariant_amended_witness :
    ({ sAuthed with user := none } : AuthState).user = none
    ∧ ({ sAuthed with user := none } : AuthState).profile = sAuthed.profile :=
  (authState_invariant_amended envSigninFails sAuthed).2.2.1 (AuthErr.backend 401)
    { sAuthed with user := none } [Ev.createEmailSessionCall] rfl

/-- The matcher the source inlines agrees pointwise with the case-insensitive
substring-containment predicate of the resolver contract at the fragment
"google" (which is already lowercase). -/
theorem providerMatches_agrees (x : Identity) :
    providerMatchesGoogle x.provider = ciMatchesGoogle x := by
  cases h : x.provider with
  | none => simp [providerMatchesGoogle, ciMatchesGoogle, h]
  | some p =>
    have hg : lowerChars "google" = "google".toList := by decide
    simp [providerMatchesGoogle, ciMatchesGoogle, ciContains, h, hg]

/-- C8 theorem: for every identities list, findGoogleIdentity returns the
first identity in list order whose provider field case-insensitively contains
the fragment "google" — the fragment the program instantiates the resolver
with, so that providers "google" and "google-oauth2" both match — and
returns none exactly when no identity in the list matches. -/
theorem findGoogleIdentity_first_ci_match (l : List Identity) :
    (∀ gi, findGoogleIdentity l = some gi →
      ciMatchesGoogle gi = true
      ∧ ∃ l1 l2, l = l1 ++ gi :: l2 ∧ ∀ x ∈ l1, ciMatchesGoogle x = false)
    ∧ (findGoogleIdentity l = none ↔ ∀ x ∈ l, ciMatchesGoogle x = false) := by
  induction l with
  | nil => simp [findGoogleIdentity]
  | cons a l ih =>
    by_cases ha : providerMatchesGoogle a.provider = true
    · have haC : ciMatchesGoogle a = true := by rw [← providerMatches_agrees]; exact ha
      have hf : findGoogleIdentity (a :: l) = some a := by
        simp only [findGoogleIdentity]
        exact List.find?_cons_of_pos l ha
      constructor
      · intro gi hg
        rw [hf] at hg
        cases hg
        exact ⟨haC, [], l, rfl, by simp⟩
      · rw [hf]
        constructor
        · intro hn
          exact absurd hn (by simp)
        · intro hall
          have := hall a (List.mem_cons_self a l)
          rw [haC] at this
          exact absurd this (by simp)
    · have haC : ciMatchesGoogle a = false := by
        rw [← providerMatches_agrees]
        exact Bool.not_eq_true _ ▸ (Bool.eq_false_iff.mpr (fun hc => ha hc))
      have hf : findGoogleIdentity (a :: l) = findGoogleIdentity l := by
        simp only [findGoogleIdentity]
        exact List.find?_cons_of_neg l ha
      constructor
      · intro gi hg
        rw [hf] at hg
        obtain ⟨hm, l1, l2, heq, hall⟩ := ih.1 gi hg
        refine ⟨hm, a :: l1, l2, by rw [heq]; rfl, ?_⟩
        intro x hx
        rcases List.mem_cons.mp hx with rfl | hx
        · exact haC
        · exact hall x hx
      · rw [hf]
        constructor
        · intro hn x hx
          rcases List.mem_cons.mp hx with rfl | hx
          · exact haC
          · exact (ih.2.mp hn) x hx
        · intro hall
          exact ih.2.mpr (fun x hx => hall x (List.mem_cons_of_mem a hx))

/-- C8 witness: a provider tag "Google-OAuth2" (a compound, mixed-case tag)
is matched by the resolver, instantiating the theorem on a singleton list. -/
theorem findGoogleIdentity_first_ci_match_witness :
    ciMatchesGoogle { provider := some "Google-OAuth2"
                    , providerAccessToken := none
                    , providerAccessTokenExpiry := none } = true :=
  ((findGoogleIdentity_first_ci_match
      [{ provider := some "Google-OAuth2"
       , providerAccessToken := none
       , providerAccessTokenExpiry := none }]).1 _ (by decide)).1

/-- C2 witness: instantiating the refresh-safety theorem at a concrete
environment whose user fetch is rejected: both user and profile come back
absent and isLoading is false. -/
theorem checkCurrentUser_never_throws_clears_together_witness :
    (checkCurrentUser envUserFetchFails sInit).1.user = none
    ∧ (checkCurrentUser envUserFetchFails sInit).1.profile = none
    ∧ (checkCurrentUser envUserFetchFails sInit).1.isLoading = false := by
  have h := checkCurrentUser_never_throws_clears_together envUserFetchFails sInit
  exact ⟨(h.2.2 rfl).1, (h.2.2 rfl).2, h.1⟩
